import Mathlib

/-!
Verification of the email-driven change-automation workflow.

Shallow embedding of the core workflow of the `autoupdate` repository
(`email-automation-test.py`, together with the token-generation variant found in
`demo-simulation.py`): classification handling, approval-token generation,
GitHub issue creation and token search, the approval / agent-trigger step and
the confirmation e-mail, with theorems settling the specification claims.

External effects (HTTP round trips) are modelled by explicit parameters for the
environment inputs (clock reading, random draw, the tracker state, and
success/failure of each call) and by explicit effect traces for the outputs.
-/

namespace AutoUpdate

/-! ## Decimal rendering (Python `str` formatting and `strftime` fields) -/

/-- The ASCII digit character for a value below ten. -/
def digitChar (n : Nat) : Char := Char.ofNat (48 + n)

/-- Fuel-driven helper computing the decimal digit list of `n`, most significant
digit first. The fuel only serves termination; `natDigits` supplies enough. -/
def natDigitsAux : Nat → Nat → List Char
  | 0, _ => []
  | fuel + 1, n =>
    if n < 10 then [digitChar n]
    else natDigitsAux fuel (n / 10) ++ [digitChar (n % 10)]

/-- Decimal digit list of a natural number, as Python renders `str(n)`
(most significant digit first, zero rendered as a single digit). -/
def natDigits (n : Nat) : List Char := natDigitsAux (n + 1) n

theorem natDigitsAux_congr (f₁ : Nat) : ∀ (f₂ n : Nat), n < f₁ → n < f₂ →
    natDigitsAux f₁ n = natDigitsAux f₂ n := by
  induction f₁ with
  | zero => intro f₂ n h₁ _; omega
  | succ f ih =>
    intro f₂ n h₁ h₂
    cases f₂ with
    | zero => omega
    | succ f' =>
      show (if n < 10 then _ else _) = (if n < 10 then _ else _)
      by_cases hn : n < 10
      · simp [hn]
      · have hd : n / 10 < n := Nat.div_lt_self (by omega) (by omega)
        simp only [hn, if_false]
        rw [ih f' (n / 10) (by omega) (by omega)]

/-- Unfolding equation for `natDigits`. -/
theorem natDigits_eq (n : Nat) :
    natDigits n = if n < 10 then [digitChar n]
      else natDigits (n / 10) ++ [digitChar (n % 10)] := by
  show (if n < 10 then _ else _) = _
  by_cases hn : n < 10
  · simp [hn]
  · have hd : n / 10 < n := Nat.div_lt_self (by omega) (by omega)
    simp only [hn, if_false]
    rw [natDigitsAux_congr n (n / 10 + 1) (n / 10) (by omega) (by omega)]
    rfl

/-- Left-pad a digit list with zeros to width `w`, as Python zero-padded
formatting (`f"{n:04d}"`, `strftime` two-digit fields) does. -/
def zfill (w : Nat) (s : List Char) : List Char :=
  List.replicate (w - s.length) '0' ++ s

/-- Numeric value of a digit list; used to reason about token pieces. -/
def decodeNum (s : List Char) : Nat :=
  s.foldl (fun acc c => 10 * acc + (c.toNat - 48)) 0

theorem digitChar_toNat {n : Nat} (h : n < 10) : (digitChar n).toNat = 48 + n := by
  interval_cases n <;> decide

theorem digitChar_isDigit {n : Nat} (h : n < 10) : (digitChar n).isDigit = true := by
  interval_cases n <;> decide

theorem natDigits_all_isDigit (n : Nat) : (natDigits n).all Char.isDigit = true := by
  rw [natDigits_eq]
  split
  · simp [digitChar_isDigit ‹n < 10›]
  · have ih := natDigits_all_isDigit (n / 10)
    have hm : n % 10 < 10 := Nat.mod_lt _ (by omega)
    simp [List.all_append, ih, digitChar_isDigit hm]
termination_by n
decreasing_by omega

theorem natDigits_length_le : ∀ (k n : Nat), n < 10 ^ (k + 1) →
    (natDigits n).length ≤ k + 1 := by
  intro k
  induction k with
  | zero =>
    intro n h
    rw [natDigits_eq]
    split
    · simp
    · simp [pow_one] at h; omega
  | succ k ih =>
    intro n h
    rw [natDigits_eq]
    split
    · simp
    · have h10 : n / 10 < 10 ^ (k + 1) := by
        rw [Nat.div_lt_iff_lt_mul (by norm_num : (0:Nat) < 10)]
        calc n < 10 ^ (k + 1 + 1) := h
          _ = 10 ^ (k + 1) * 10 := by rw [pow_succ]
      have := ih (n / 10) h10
      simp only [List.length_append, List.length_cons, List.length_nil]
      omega

theorem zfill_length {w : Nat} {s : List Char} (h : s.length ≤ w) :
    (zfill w s).length = w := by
  simp [zfill]; omega

theorem zfill_all_isDigit {w : Nat} {s : List Char} (h : s.all Char.isDigit = true) :
    (zfill w s).all Char.isDigit = true := by
  simp only [zfill, List.all_append, h, Bool.and_true]
  simp only [List.all_eq_true]
  intro c hc
  rw [List.eq_of_mem_replicate hc]
  decide

theorem decode_foldl (l : List Char) (acc : Nat) :
    l.foldl (fun a c => 10 * a + (c.toNat - 48)) acc
      = acc * 10 ^ l.length + l.foldl (fun a c => 10 * a + (c.toNat - 48)) 0 := by
  induction l generalizing acc with
  | nil => simp
  | cons c t ih =>
    simp only [List.foldl_cons, List.length_cons]
    rw [ih (10 * acc + (c.toNat - 48)), ih (10 * 0 + (c.toNat - 48))]
    ring

theorem decodeNum_append (a b : List Char) :
    decodeNum (a ++ b) = decodeNum a * 10 ^ b.length + decodeNum b := by
  unfold decodeNum
  rw [List.foldl_append, decode_foldl]

theorem decodeNum_natDigits (n : Nat) : decodeNum (natDigits n) = n := by
  rw [natDigits_eq]
  split
  · simp [decodeNum, digitChar_toNat ‹n < 10›]
  · have ih := decodeNum_natDigits (n / 10)
    rw [decodeNum_append, ih]
    have hm : n % 10 < 10 := Nat.mod_lt _ (by omega)
    simp [decodeNum, digitChar_toNat hm]
    omega
termination_by n
decreasing_by omega

theorem decodeNum_replicate_zero (k : Nat) :
    decodeNum (List.replicate k '0') = 0 := by
  induction k with
  | zero => rfl
  | succ k ih => simpa [List.replicate_succ, decodeNum, List.foldl_cons] using ih

theorem decodeNum_zfill (w : Nat) (s : List Char) :
    decodeNum (zfill w s) = decodeNum s := by
  rw [zfill, decodeNum_append, decodeNum_replicate_zero]
  simp

/-! ## Clock readings and `strftime` output -/

/-- Wall-clock reading at second granularity, the value consumed by
`datetime.now().strftime(...)` in the source scripts. -/
structure DT where
  year : Nat
  month : Nat
  day : Nat
  hour : Nat
  minute : Nat
  second : Nat
  deriving DecidableEq, Repr

/-- Field ranges of a clock reading as produced by `datetime.now()`
(the year restricted to four digits, true of any contemporary clock). -/
def DT.Valid (t : DT) : Prop :=
  1000 ≤ t.year ∧ t.year ≤ 9999 ∧ 1 ≤ t.month ∧ t.month ≤ 12 ∧
    1 ≤ t.day ∧ t.day ≤ 31 ∧ t.hour ≤ 23 ∧ t.minute ≤ 59 ∧ t.second ≤ 59

instance (t : DT) : Decidable t.Valid := by unfold DT.Valid; infer_instance

/-- Chronological order of clock readings (lexicographic field order). -/
def DT.le (t₁ t₂ : DT) : Prop :=
  t₁.year < t₂.year ∨ (t₁.year = t₂.year ∧
    (t₁.month < t₂.month ∨ (t₁.month = t₂.month ∧
      (t₁.day < t₂.day ∨ (t₁.day = t₂.day ∧
        (t₁.hour < t₂.hour ∨ (t₁.hour = t₂.hour ∧
          (t₁.minute < t₂.minute ∨ (t₁.minute = t₂.minute ∧
            t₁.second ≤ t₂.second)))))))))

instance (t₁ t₂ : DT) : Decidable (DT.le t₁ t₂) := by unfold DT.le; infer_instance

/-- Timestamp value `YYYYMMDDHHMMSS` of a clock reading as one number. -/
def DT.tsNum (t : DT) : Nat :=
  ((((t.year * 100 + t.month) * 100 + t.day) * 100 + t.hour) * 100 + t.minute) * 100
    + t.second

theorem DT.tsNum_mono {t₁ t₂ : DT} (h₁ : t₁.Valid) (h₂ : t₂.Valid)
    (h : DT.le t₁ t₂) : t₁.tsNum ≤ t₂.tsNum := by
  unfold DT.Valid at h₁ h₂
  unfold DT.le at h
  unfold DT.tsNum
  omega

/-- Output of `datetime.now().strftime("%Y%m%d%H%M%S")`: the 14-character
timestamp used inside approval tokens. -/
def strftime14 (t : DT) : List Char :=
  zfill 4 (natDigits t.year) ++ zfill 2 (natDigits t.month) ++
    zfill 2 (natDigits t.day) ++ zfill 2 (natDigits t.hour) ++
    zfill 2 (natDigits t.minute) ++ zfill 2 (natDigits t.second)

/-- Output of `strftime('%Y-%m-%d %H:%M:%S')`, the long date format used in
issue bodies, comments and e-mails. -/
def strftimeLong (t : DT) : String :=
  String.mk (zfill 4 (natDigits t.year)) ++ "-" ++
    String.mk (zfill 2 (natDigits t.month)) ++ "-" ++
    String.mk (zfill 2 (natDigits t.day)) ++ " " ++
    String.mk (zfill 2 (natDigits t.hour)) ++ ":" ++
    String.mk (zfill 2 (natDigits t.minute)) ++ ":" ++
    String.mk (zfill 2 (natDigits t.second))

theorem natDigits_length_le_four {n : Nat} (h : n ≤ 9999) :
    (natDigits n).length ≤ 4 := natDigits_length_le 3 n (by omega)

theorem natDigits_length_le_two {n : Nat} (h : n ≤ 99) :
    (natDigits n).length ≤ 2 := natDigits_length_le 1 n (by omega)

theorem strftime14_length {t : DT} (h : t.Valid) : (strftime14 t).length = 14 := by
  obtain ⟨h1, h2, h3, h4, h5, h6, h7, h8, h9⟩ := h
  simp only [strftime14, List.length_append]
  rw [zfill_length (natDigits_length_le_four h2),
    zfill_length (natDigits_length_le_two (by omega)),
    zfill_length (natDigits_length_le_two (by omega)),
    zfill_length (natDigits_length_le_two (by omega)),
    zfill_length (natDigits_length_le_two (by omega)),
    zfill_length (natDigits_length_le_two (by omega))]

theorem strftime14_all_isDigit (t : DT) :
    (strftime14 t).all Char.isDigit = true := by
  simp only [strftime14, List.all_append]
  simp [zfill_all_isDigit (natDigits_all_isDigit _)]

theorem decodeNum_strftime14 {t : DT} (h : t.Valid) :
    decodeNum (strftime14 t) = t.tsNum := by
  obtain ⟨h1, h2, h3, h4, h5, h6, h7, h8, h9⟩ := h
  have l2 : ∀ {n : Nat}, n ≤ 99 → (zfill 2 (natDigits n)).length = 2 :=
    fun hn => zfill_length (natDigits_length_le_two hn)
  have d : ∀ n : Nat, decodeNum (zfill 2 (natDigits n)) = n := fun n => by
    rw [decodeNum_zfill, decodeNum_natDigits]
  simp only [strftime14]
  rw [decodeNum_append, decodeNum_append, decodeNum_append, decodeNum_append,
    decodeNum_append]
  rw [decodeNum_zfill, decodeNum_natDigits, d, d, d, d, d]
  rw [l2 (by omega : t.second ≤ 99), l2 (by omega : t.minute ≤ 99),
    l2 (by omega : t.hour ≤ 99), l2 (by omega : t.day ≤ 99),
    l2 (by omega : t.month ≤ 99)]
  unfold DT.tsNum
  ring

/-! ## Token generation -/

/-- Model of `generate_approval_token` in `email-automation-test.py`:
`f"APPR-{timestamp}-{random_num}"`, where `timestamp` is the `%Y%m%d%H%M%S`
rendering of the clock reading `t` and `random_num = random.randint(1000, 9999)`
is the random draw `r`; `t` and `r` are the two environment inputs. -/
def generate_approval_token (t : DT) (r : Nat) : String :=
  "APPR-" ++ String.mk (strftime14 t) ++ "-" ++ String.mk (natDigits r)

/-- Model of the token built inline by `create_github_issue` in
`demo-simulation.py`: `f"APPR-{timestamp}-{hash(title) % 10000:04d}"`.
The Python hash value of the title is the integer input `h`. -/
def demo_create_token (t : DT) (h : Int) : String :=
  "APPR-" ++ String.mk (strftime14 t) ++ "-" ++
    String.mk (zfill 4 (natDigits (h % 10000).toNat))

/-- The 14 characters of a token holding the embedded timestamp. -/
def tokenTimestamp (s : String) : List Char := (s.data.drop 5).take 14

/-- The characters of a token after the second dash: the random suffix. -/
def tokenSuffix (s : String) : List Char := s.data.drop 20

/-- Shape required of every approval token by the specification pattern
`APPR-\d\x7b14\x7d-\d\x7b4\x7d`: the fixed prefix, 14 timestamp digits, a dash
and 4 suffix digits. -/
def MatchesTokenPattern (s : String) : Prop :=
  ∃ ts sf : List Char,
    s.data = ("APPR-".data ++ ts) ++ '-' :: sf ∧
      ts.length = 14 ∧ ts.all Char.isDigit = true ∧
      sf.length = 4 ∧ sf.all Char.isDigit = true

theorem generate_approval_token_data (t : DT) (r : Nat) :
    (generate_approval_token t r).data
      = ("APPR-".data ++ strftime14 t) ++ '-' :: natDigits r := by
  simp [generate_approval_token, String.data_append]

theorem demo_create_token_data (t : DT) (h : Int) :
    (demo_create_token t h).data
      = ("APPR-".data ++ strftime14 t) ++ '-' :: zfill 4 (natDigits (h % 10000).toNat) := by
  simp [demo_create_token, String.data_append]

theorem tokenSuffix_of_data {s : String} {body : List Char}
    (hs : s.data = ("APPR-".data ++ body) ++ '-' :: tail)
    (hb : body.length = 14) : tokenSuffix s = tail := by
  unfold tokenSuffix
  rw [hs]
  have : ("APPR-".data ++ body) ++ '-' :: tail
      = (("APPR-".data ++ body) ++ ['-']) ++ tail := by simp
  rw [this]
  have hlen : (("APPR-".data ++ body) ++ ['-']).length = 20 := by
    simp [hb]
  rw [show (20 : Nat) = (("APPR-".data ++ body) ++ ['-']).length from hlen.symm]
  exact List.drop_left _ _

theorem tokenTimestamp_of_data {s : String} {body tail : List Char}
    (hs : s.data = ("APPR-".data ++ body) ++ '-' :: tail)
    (hb : body.length = 14) : tokenTimestamp s = body := by
  unfold tokenTimestamp
  rw [hs]
  have : ("APPR-".data ++ body) ++ '-' :: tail
      = "APPR-".data ++ (body ++ '-' :: tail) := by simp
  rw [this]
  rw [show (5 : Nat) = ("APPR-".data).length from rfl]
  rw [List.drop_left _ _]
  rw [show (14 : Nat) = body.length from hb.symm]
  exact List.take_left _ _

/-! ## Substring containment -/

/-- Computable substring test on character lists. -/
def containsSubB (needle : List Char) : List Char → Bool
  | [] => needle.isEmpty
  | c :: rest => needle.isPrefixOf (c :: rest) || containsSubB needle rest

/-- The string `hay` embeds the string `needle` verbatim. -/
def ContainsStr (hay needle : String) : Prop :=
  ∃ pre post : String, hay = pre ++ needle ++ post

theorem containsSubB_list (n : List Char) :
    ∀ h : List Char, containsSubB n h = true ↔ ∃ a b, h = a ++ n ++ b := by
  intro h
  induction h with
  | nil =>
    simp only [containsSubB, List.isEmpty_iff]
    constructor
    · rintro rfl; exact ⟨[], [], rfl⟩
    · rintro ⟨a, b, hab⟩
      have := congrArg List.length hab
      simp at this
      have hn : n.length = 0 := by omega
      exact List.length_eq_zero.mp hn
  | cons c rest ih =>
    simp only [containsSubB, Bool.or_eq_true]
    constructor
    · rintro (hp | hrec)
      · have : n <+: c :: rest := by
          exact List.isPrefixOf_iff_prefix.mp hp
        obtain ⟨tl, htl⟩ := this
        exact ⟨[], tl, by simp [htl.symm]⟩
      · obtain ⟨a, b, hab⟩ := ih.mp hrec
        exact ⟨c :: a, b, by simp [hab]⟩
    · rintro ⟨a, b, hab⟩
      cases a with
      | nil =>
        left
        rw [List.isPrefixOf_iff_prefix]
        exact ⟨b, by simpa using hab.symm⟩
      | cons a0 atl =>
        right
        apply ih.mpr
        refine ⟨atl, b, ?_⟩
        have := List.tail_eq_of_cons_eq hab
        simpa using this

theorem containsSubB_iff (hay needle : String) :
    containsSubB needle.data hay.data = true ↔ ContainsStr hay needle := by
  rw [containsSubB_list]
  constructor
  · rintro ⟨a, b, hab⟩
    refine ⟨String.mk a, String.mk b, ?_⟩
    apply String.ext
    simp [String.data_append, hab]
  · rintro ⟨pre, post, h⟩
    refine ⟨pre.data, post.data, ?_⟩
    rw [h]
    simp [String.data_append]

theorem ContainsStr.here (a b c : String) : ContainsStr (a ++ b ++ c) b :=
  ⟨a, c, rfl⟩

theorem ContainsStr.atEnd (a b : String) : ContainsStr (a ++ b) b :=
  ⟨a, "", by simp⟩

theorem ContainsStr.appendRight {s n : String} (h : ContainsStr s n)
    (tl : String) : ContainsStr (s ++ tl) n := by
  obtain ⟨pre, post, rfl⟩ := h
  exact ⟨pre, post ++ tl, by simp [String.append_assoc]⟩

theorem ContainsStr.appendLeft (hd : String) {s n : String}
    (h : ContainsStr s n) : ContainsStr (hd ++ s) n := by
  obtain ⟨pre, post, rfl⟩ := h
  exact ⟨hd ++ pre, post, by simp [String.append_assoc]⟩

/-- Model of Python `str.lower()` (character-wise lowercasing). -/
def pyLower (s : String) : String := String.mk (s.data.map Char.toLower)

/-- Model of Python `str.strip()`: whitespace removed from both ends. -/
def pyStrip (s : String) : String :=
  String.mk (((s.data.dropWhile Char.isWhitespace).reverse.dropWhile
    Char.isWhitespace).reverse)

/-! ## Classifier (`classify_email_content`) -/

/-- Model of `classify_email_content`: the OpenAI call either yields a reply
body (`some content`, classification `content.strip()`) or raises
(`none`: network, auth or response-shape failure caught by the `except`
branch), in which case the function returns `"neither"`. -/
def classify_email_content (response : Option String) : String :=
  match response with
  | some content => pyStrip content
  | none => "neither"

/-- Model of Python `s.split(sep, 1)` restricted to what `main` inspects:
`none` when `sep` does not occur in the input (one-element part list, so
`len(parts) < 2`), otherwise the text before and after the first occurrence. -/
def splitOnce (sep : List Char) : List Char → Option (List Char × List Char)
  | [] => none
  | c :: rest =>
    if sep.isPrefixOf (c :: rest) then some ([], (c :: rest).drop sep.length)
    else
      match splitOnce sep rest with
      | none => none
      | some (a, b) => some (c :: a, b)

/-! ## Issue creation (`create_github_issue`) -/

/-- Helper for Python `str.title()`: uppercase each letter that does not follow
a letter, lowercase the rest. -/
def pyTitleAux : Bool → List Char → List Char
  | _, [] => []
  | prevAlpha, c :: rest =>
    (if c.isAlpha then (if prevAlpha then c.toLower else c.toUpper) else c)
      :: pyTitleAux c.isAlpha rest

/-- Model of Python `str.title()` as used on the issue type. -/
def pyTitle (s : String) : String := String.mk (pyTitleAux false s.data)

/-- Label list attached at issue creation: the fixed marker labels plus the
kind label chosen from `issue_type.lower()`. -/
def issueLabels (issue_type : String) : List String :=
  ["amazon-q", "client-request", "auto-generated"] ++
    (if pyLower issue_type = "bug" then ["bug"]
     else if pyLower issue_type = "feature" then ["enhancement"]
     else [])

/-- AI instruction sentence selected from the issue type. -/
def aiInstructions (issue_type : String) : String :=
  if pyLower issue_type = "bug" then
    "Fix the described issue in the website code. Identify the root cause and implement a solution."
  else
    "Implement the requested feature. Follow best practices and ensure the implementation is user-friendly."

/-- The issue body template of `create_github_issue`
(`email-automation-test.py`), with every interpolated value in place. -/
def issueBody (issue_type description website_url account_id approval_token : String)
    (t : DT) : String :=
  "## " ++ pyTitle issue_type ++ " Report\n\n**Description:** " ++ description ++
    "\n\n**Website:** " ++ website_url ++
    "\n**Account ID:** " ++ account_id ++
    "\n**Approval Token:** " ++ approval_token ++
    "\n**Status:** Pending Client Approval\n\n## AI Instructions\n" ++
    aiInstructions issue_type ++
    "\n\n## Next Steps\n- [ ] Client approval received\n- [ ] Code analysis completed  \n- [ ] Solution implemented\n- [ ] Testing completed\n- [ ] Deployed to production\n\n---\n*This issue was created automatically from a client email request.*\n*Generated on: " ++
    strftimeLong t ++ " UTC*\n"

/-- The issue-creation request `POST`ed by `create_github_issue`. -/
structure IssueRequest where
  repo : String
  title : String
  body : String
  labels : List String
  deriving DecidableEq

/-- Model of `create_github_issue`: the request body sent to the tracker for
repository `repository`, built from the classification outcome, the client
account data and the approval token. -/
def create_github_issue
    (issue_type title description repository website_url account_id approval_token : String)
    (t : DT) : IssueRequest :=
  { repo := repository
    title := title
    body := issueBody issue_type description website_url account_id approval_token t
    labels := issueLabels issue_type }

/-! ## Tracker state, token search and the approval step -/

/-- An issue as held by the external tracker. -/
structure Issue where
  number : Nat
  repo : String
  isOpen : Bool
  body : String
  labels : List String
  deriving DecidableEq

/-- The label set the approval step `PATCH`es onto the issue. -/
def approvedLabels : List String :=
  ["amazon-q", "approved", "amazon-q-ready", "help-wanted", "good-first-issue"]

/-- Effect of the approval-step `PATCH` on the tracked issue: the request sets
the `labels` field, which replaces the whole label set of the issue. -/
def advanceToApproved (i : Issue) : Issue := { i with labels := approvedLabels }

/-- Model of the tracker search endpoint for the query
`repo:<org>/<repository> <token> in:body state:open`: the open issues of the
repository whose body embeds the token. -/
def searchIssues (issues : List Issue) (fullRepo token : String) : List Issue :=
  issues.filter fun i => i.repo == fullRepo && i.isOpen && containsSubB token.data i.body.data

/-- The issue the approval step settles on: the first search result, if any
(the specification names this operation `findIssueByToken`). -/
def findIssueByToken (org : String) (issues : List Issue)
    (repository token : String) : Option Issue :=
  match searchIssues issues (org ++ "/" ++ repository) token with
  | [] => none
  | i :: _ => some i

/-- The agent-trigger comment body posted by the approval step. -/
def approvalCommentBody (approval_token repository : String) (t : DT) : String :=
  "✅ **Client Approval Received - SIMULATED FOR TESTING**\n\n@amazon-q please help with this issue.\n\n## Problem Summary\nThis issue has been approved by the client and is ready for AI implementation.\n\n## Expected Solution\nPlease analyze the issue description and implement the appropriate solution.\n\n## Technical Details\n- This is an automated request from the email automation system\n- Client approval token: " ++
    approval_token ++ "\n- Repository: " ++ repository ++
    "\n\nPlease implement a solution and create a pull request.\n\nNext steps:\n- [x] Client approval received\n- [ ] Code analysis completed  \n- [ ] Solution implemented\n- [ ] Testing completed\n- [ ] Deployed to production\n\n---\n*Approval processed automatically at " ++
    strftimeLong t ++ " UTC*"

/-! ## Mail adapter (`send_confirmation_email`) -/

/-- The SendGrid request built by `send_confirmation_email`: recipient,
subject, the two content representations and the tracking settings. -/
structure MailMessage where
  recipient : String
  subject : String
  textContent : String
  htmlContent : String
  clickTrackingEnabled : Bool
  openTrackingEnabled : Bool
  deriving DecidableEq

/-- Model of `send_confirmation_email`: the mail-send request it builds. -/
def send_confirmation_email
    (client_email content_summary approve_link reject_link approval_token : String)
    (t : DT) : MailMessage :=
  { recipient := client_email
    subject := "Confirm Your Website Change Request - Token: " ++ approval_token
    textContent :=
      "Confirm Your Website Change Request\n\nDear Client,\n\nWe\x27ve analyzed your email and interpreted it as the following:\nSummary: " ++
        content_summary ++
        "\n\nTo proceed with this change, please click one of the links below:\n\n[APPROVE ✅] " ++
        approve_link ++ "\n\n[REJECT ❌] " ++ reject_link ++
        "\n\nApproval Token: " ++ approval_token ++
        "\n\nIf you have any questions or need to provide additional details, please reply to this email.\n\nBest regards,\nYour Website Automation Team\n\n---\nThis email was automatically generated by the email automation system.\nGenerated on: " ++
        strftimeLong t ++ " UTC\n"
    htmlContent :=
      "<!DOCTYPE html>\n<html>\n<head>\n    <style>\n        body \x7b font-family: Arial, sans-serif; line-height: 1.6; color: #333; \x7d\n        .container \x7b max-width: 600px; margin: 0 auto; padding: 20px; \x7d\n        .header \x7b background-color: #007bff; color: white; padding: 20px; border-radius: 5px; margin-bottom: 20px; \x7d\n        .content \x7b background-color: #f8f9fa; padding: 20px; border-radius: 5px; margin-bottom: 20px; \x7d\n        .buttons \x7b margin: 20px 0; text-align: center; \x7d\n        .button \x7b display: inline-block; padding: 15px 30px; color: white; text-decoration: none; border-radius: 5px; margin: 0 10px; font-weight: bold; \x7d\n        .approve \x7b background-color: #28a745; \x7d\n        .reject \x7b background-color: #dc3545; \x7d\n        .footer \x7b margin-top: 30px; padding-top: 20px; border-top: 1px solid #ddd; font-size: 12px; color: #666; \x7d\n    </style>\n</head>\n<body>\n    <div class=\"container\">\n        <div class=\"header\">\n            <h2>🔍 Confirm Your Website Change Request</h2>\n        </div>\n        <div class=\"content\">\n            <p>Dear Client,</p>\n            <p>We\x27ve analyzed your email and interpreted it as the following:</p>\n            <p><strong>Summary:</strong> " ++
        content_summary ++
        "</p>\n            \n            <p>To proceed with this change, please click one of the links below:</p>\n            \n            <div class=\"buttons\">\n                <a href=\"" ++
        approve_link ++ "\" class=\"button approve\">[APPROVE ✅]</a>\n                <a href=\"" ++
        reject_link ++ "\" class=\"button reject\">[REJECT ❌]</a>\n            </div>\n            \n            <p><strong>Approval Token:</strong> " ++
        approval_token ++
        "</p>\n            \n            <p>If you have any questions or need to provide additional details, please reply to this email.</p>\n            \n            <p>Best regards,<br>Your Website Automation Team</p>\n        </div>\n        <div class=\"footer\">\n            <p>This email was automatically generated by the email automation system.</p>\n            <p>Generated on: " ++
        strftimeLong t ++ " UTC</p>\n        </div>\n    </div>\n</body>\n</html>"
    clickTrackingEnabled := false
    openTrackingEnabled := false }

/-! ## The approval step and the whole workflow -/

/-- Outcome record of the approval step: `success` with the issue number, the
`Issue not found` failure (zero search matches), or a failed HTTP write
(the `except` branch returning `str(e)`). -/
inductive ApprovalResult where
  | success (issue_number : Nat)
  | notFound
  | httpFailure
  deriving DecidableEq

/-- An externally visible side effect of a workflow run, in execution order. -/
inductive Effect where
  | genToken (token : String)
  | createIssue (req : IssueRequest)
  | sendEmail (msg : MailMessage)
  | labelUpdate (repo : String) (issueNumber : Nat) (labels : List String)
  | comment (repo : String) (issueNumber : Nat) (body : String)
  deriving DecidableEq

/-- Model of `simulate_approval_and_trigger_amazon_q`. The tracker state is
`issues`; `patchOk` and `commentOk` give the outcome of the two HTTP writes
(`False` models a non-2xx response: `raise_for_status` throws, the `except`
branch returns a failure record and the failed call leaves no tracker effect).
Returns the outcome together with the trace of tracker writes, in order. -/
def simulate_approval_and_trigger_amazon_q (org : String) (issues : List Issue)
    (repository token : String) (patchOk commentOk : Bool) (t : DT) :
    ApprovalResult × List Effect :=
  match searchIssues issues (org ++ "/" ++ repository) token with
  | [] => (.notFound, [])
  | issue :: _ =>
    if patchOk then
      if commentOk then
        (.success issue.number,
          [.labelUpdate (org ++ "/" ++ repository) issue.number approvedLabels,
           .comment (org ++ "/" ++ repository) issue.number
             (approvalCommentBody token repository t)])
      else
        (.httpFailure,
          [.labelUpdate (org ++ "/" ++ repository) issue.number approvedLabels])
    else (.httpFailure, [])

/-- The fixture email content `main` processes. -/
def testEmailContent : String :=
  "Bug in website: Hi when I refresh the contact page it gives me a 404"

/-- Model of `main` from the classification result onward: the sequence of
side effects of one workflow run. `classification` is the value returned by
`classify_email_content`; `t`, `r`, `org` and `issues` are the environment;
`issueOk` and `emailOk` give the outcomes of the issue-creation `POST` and the
mail send (on failure `main` returns, so later effects are cut off). -/
def mainWorkflow (classification : String) (t : DT) (r : Nat) (org : String)
    (issues : List Issue) (issueOk emailOk patchOk commentOk : Bool) : List Effect :=
  if classification = "neither" then []
  else
    match splitOnce ": ".data classification.data with
    | none => []
    | some (p0, p1) =>
      let issue_type := pyStrip (String.mk p0)
      let summary := pyStrip (String.mk p1)
      let repository := "sa-template"
      let approval_token := generate_approval_token t r
      Effect.genToken approval_token ::
        if issueOk then
          Effect.createIssue
              (create_github_issue issue_type summary testEmailContent repository
                "https://example.com" "test-account-001" approval_token t) ::
            (let approve_link := "https://yourfunction.azurewebsites.net" ++
                "/approve?token=" ++ approval_token ++ "&repo=" ++ repository
             let reject_link := "https://yourfunction.azurewebsites.net" ++
                "/reject?token=" ++ approval_token ++ "&repo=" ++ repository
             if emailOk then
               Effect.sendEmail
                   (send_confirmation_email "john@datan8.com" summary approve_link
                     reject_link approval_token t) ::
                 (simulate_approval_and_trigger_amazon_q org issues repository
                     approval_token patchOk commentOk t).2
             else [])
        else []

/-! ## Shared concrete inputs for witnesses -/

/-- Sample clock reading used in concrete instances. -/
def sampleClock : DT := ⟨2025, 6, 1, 12, 0, 0⟩

/-- A clock reading one second later than `sampleClock`. -/
def sampleClock2 : DT := ⟨2025, 6, 1, 12, 0, 1⟩

/-! ## Claim C5 -/

/-- C5: `advanceToApproved` is idempotent — applying it twice to an issue
yields the same issue, hence the same final label set, as applying it once —
and applying it to an issue that already carries the approval label set is a
no-op rather than an error. -/
theorem advanceToApproved_idempotent :
    (∀ i : Issue, advanceToApproved (advanceToApproved i) = advanceToApproved i) ∧
    (∀ i : Issue, i.labels = approvedLabels → advanceToApproved i = i) := by
  constructor
  · intro i; rfl
  · intro i h
    cases i
    simp_all [advanceToApproved]

/-- Witness for C5 at a concrete issue that already has the approval labels. -/
theorem advanceToApproved_idempotent_witness :
    advanceToApproved ⟨7, "datan8/sa-template", true, "body", approvedLabels⟩
      = ⟨7, "datan8/sa-template", true, "body", approvedLabels⟩ :=
  advanceToApproved_idempotent.2 ⟨7, "datan8/sa-template", true, "body", approvedLabels⟩ rfl

/-! ## Claim C10 -/

/-- C10: the approval `PATCH` replaces the issue's entire label set with the
fixed constant set, regardless of the labels previously present; in particular
the kind labels and the `client-request` / `auto-generated` markers are gone
afterwards. -/
theorem advanceToApproved_replaces_labels (i : Issue) :
    (advanceToApproved i).labels
        = ["amazon-q", "approved", "amazon-q-ready", "help-wanted", "good-first-issue"] ∧
      "bug" ∉ (advanceToApproved i).labels ∧
      "enhancement" ∉ (advanceToApproved i).labels ∧
      "client-request" ∉ (advanceToApproved i).labels ∧
      "auto-generated" ∉ (advanceToApproved i).labels := by
  have h : (advanceToApproved i).labels = approvedLabels := rfl
  refine ⟨rfl, ?_, ?_, ?_, ?_⟩ <;> (rw [h]; decide)

/-! ## Claim C2 -/

/-- C2: a `"neither"` classification — including an LLM-call failure, which
`classify_email_content` maps to `"neither"` — terminates the workflow with no
side effects: no token generated, no issue created, no email sent, no approval
processing. -/
theorem neither_classification_no_side_effects :
    classify_email_content none = "neither" ∧
    ∀ (response : Option String) (t : DT) (r : Nat) (org : String)
      (issues : List Issue) (issueOk emailOk patchOk commentOk : Bool),
      classify_email_content response = "neither" →
      mainWorkflow (classify_email_content response) t r org issues
        issueOk emailOk patchOk commentOk = [] := by
  refine ⟨rfl, ?_⟩
  intro response t r org issues issueOk emailOk patchOk commentOk h
  rw [h]
  rfl

/-- Witness for C2: a failed LLM call on the sample environment leaves an
empty effect trace. -/
theorem neither_classification_no_side_effects_witness :
    mainWorkflow (classify_email_content none) sampleClock 1234 "datan8" []
      true true true true = [] :=
  neither_classification_no_side_effects.2 none sampleClock 1234 "datan8" []
    true true true true rfl

/-! ## Claim C4 -/

/-- C4: the token search only returns open issues; a token embedded in exactly
one open issue resolves to that issue; a token embedded in zero open issues
resolves to `none`, and the approval step then reports the `Issue not found`
failure having performed no label update and no comment. -/
theorem findIssueByToken_search_semantics
    (org : String) (issues : List Issue) (repository token : String)
    (patchOk commentOk : Bool) (t : DT) :
    (∀ i ∈ searchIssues issues (org ++ "/" ++ repository) token, i.isOpen = true) ∧
    (∀ i : Issue, searchIssues issues (org ++ "/" ++ repository) token = [i] →
      findIssueByToken org issues repository token = some i) ∧
    (searchIssues issues (org ++ "/" ++ repository) token = [] →
      findIssueByToken org issues repository token = none ∧
      simulate_approval_and_trigger_amazon_q org issues repository token patchOk commentOk t
        = (ApprovalResult.notFound, [])) := by
  refine ⟨?_, ?_, ?_⟩
  · intro i hi
    have hm := List.mem_filter.mp hi
    have hp := hm.2
    simp only [Bool.and_eq_true] at hp
    exact hp.1.2
  · intro i h
    unfold findIssueByToken
    rw [h]
  · intro h
    unfold findIssueByToken simulate_approval_and_trigger_amazon_q
    rw [h]
    exact ⟨rfl, rfl⟩

/-- Witness for C4: one matching open issue is found; an empty tracker gives
`none`. -/
theorem findIssueByToken_search_semantics_witness :
    findIssueByToken "datan8"
        [⟨1, "datan8/sa-template", true, "Approval Token: APPR-20250601120000-1234", ["amazon-q"]⟩]
        "sa-template" "APPR-20250601120000-1234"
      = some ⟨1, "datan8/sa-template", true, "Approval Token: APPR-20250601120000-1234", ["amazon-q"]⟩ ∧
    findIssueByToken "datan8" [] "sa-template" "APPR-20250601120000-1234" = none :=
  ⟨(findIssueByToken_search_semantics "datan8"
      [⟨1, "datan8/sa-template", true, "Approval Token: APPR-20250601120000-1234", ["amazon-q"]⟩]
      "sa-template" "APPR-20250601120000-1234" true true sampleClock).2.1
      ⟨1, "datan8/sa-template", true, "Approval Token: APPR-20250601120000-1234", ["amazon-q"]⟩ rfl,
   ((findIssueByToken_search_semantics "datan8" [] "sa-template"
      "APPR-20250601120000-1234" true true sampleClock).2.2 rfl).1⟩

/-! ## Claim C1 -/

/-- C1: evaluation at the failing input — the same token embedded in two open
issues of the repository. The search returns both matches, yet the approval
step silently settles on the first and reports success, instead of raising an
ambiguity error as the specification demands. -/
theorem ambiguous_token_silently_takes_first :
    (searchIssues
        [⟨1, "datan8/sa-template", true, "A APPR-20250601120000-1234 A", ["amazon-q"]⟩,
         ⟨2, "datan8/sa-template", true, "B APPR-20250601120000-1234 B", ["amazon-q"]⟩]
        "datan8/sa-template" "APPR-20250601120000-1234").length = 2 ∧
    findIssueByToken "datan8"
        [⟨1, "datan8/sa-template", true, "A APPR-20250601120000-1234 A", ["amazon-q"]⟩,
         ⟨2, "datan8/sa-template", true, "B APPR-20250601120000-1234 B", ["amazon-q"]⟩]
        "sa-template" "APPR-20250601120000-1234"
      = some ⟨1, "datan8/sa-template", true, "A APPR-20250601120000-1234 A", ["amazon-q"]⟩ ∧
    (simulate_approval_and_trigger_amazon_q "datan8"
        [⟨1, "datan8/sa-template", true, "A APPR-20250601120000-1234 A", ["amazon-q"]⟩,
         ⟨2, "datan8/sa-template", true, "B APPR-20250601120000-1234 B", ["amazon-q"]⟩]
        "sa-template" "APPR-20250601120000-1234" true true sampleClock).1
      = ApprovalResult.success 1 :=
  ⟨rfl, rfl, rfl⟩

/-! ## Claim C8 -/

theorem approvalCommentBody_mentions (token repository : String) (t : DT) :
    ContainsStr (approvalCommentBody token repository t) "@amazon-q" := by
  unfold approvalCommentBody
  apply ContainsStr.appendRight
  apply ContainsStr.appendRight
  apply ContainsStr.appendRight
  apply ContainsStr.appendRight
  apply ContainsStr.appendRight
  apply ContainsStr.appendRight
  exact (containsSubB_iff _ _).mp (by decide)

/-- C8: whenever the agent-trigger comment appears in the trace of the
approval step, the label update succeeded and the trace is exactly the label
update followed by the comment — so the comment is posted strictly after a
successful label update, and a failed label update suppresses the comment;
moreover the comment body carries the `@amazon-q` mention. -/
theorem comment_strictly_after_label_update
    (org : String) (issues : List Issue) (repository token : String)
    (patchOk commentOk : Bool) (t : DT) (n : Nat) (body : String)
    (h : Effect.comment (org ++ "/" ++ repository) n body
      ∈ (simulate_approval_and_trigger_amazon_q org issues repository token
          patchOk commentOk t).2) :
    patchOk = true ∧ commentOk = true ∧
    (simulate_approval_and_trigger_amazon_q org issues repository token
        patchOk commentOk t).2
      = [Effect.labelUpdate (org ++ "/" ++ repository) n approvedLabels,
         Effect.comment (org ++ "/" ++ repository) n body] ∧
    ContainsStr body "@amazon-q" := by
  unfold simulate_approval_and_trigger_amazon_q at h ⊢
  cases hs : searchIssues issues (org ++ "/" ++ repository) token with
  | nil =>
    rw [hs] at h
    simp at h
  | cons issue rest =>
    rw [hs] at h
    cases patchOk with
    | false => simp at h
    | true =>
      cases commentOk with
      | false => simp at h
      | true =>
        simp at h
        obtain ⟨hn1, hn2⟩ := h
        subst hn1
        subst hn2
        refine ⟨rfl, rfl, ?_, approvalCommentBody_mentions token repository t⟩
        simp

/-- Witness for C8: a concrete one-issue tracker where the approval step
posts the comment, after the label update. -/
theorem comment_strictly_after_label_update_witness :
    true = true ∧ true = true ∧
    (simulate_approval_and_trigger_amazon_q "datan8"
        [⟨1, "datan8/sa-template", true, "x APPR-20250601120000-1234 x", ["amazon-q"]⟩]
        "sa-template" "APPR-20250601120000-1234" true true sampleClock).2
      = [Effect.labelUpdate ("datan8" ++ "/" ++ "sa-template") 1 approvedLabels,
         Effect.comment ("datan8" ++ "/" ++ "sa-template") 1
           (approvalCommentBody "APPR-20250601120000-1234" "sa-template" sampleClock)] ∧
    ContainsStr (approvalCommentBody "APPR-20250601120000-1234" "sa-template" sampleClock)
      "@amazon-q" :=
  comment_strictly_after_label_update "datan8"
    [⟨1, "datan8/sa-template", true, "x APPR-20250601120000-1234 x", ["amazon-q"]⟩]
    "sa-template" "APPR-20250601120000-1234" true true sampleClock 1
    (approvalCommentBody "APPR-20250601120000-1234" "sa-template" sampleClock)
    (List.Mem.tail _ (List.Mem.head _))

/-! ## Claim C6 -/

/-- C6 (amended): every issue body built by `create_github_issue` embeds the
approval token verbatim and the fixed `**Status:** Pending Client Approval`
status line; the repository identifier, however, is not part of the body. -/
theorem issue_body_embeds_token_and_status
    (issue_type title description repository website_url account_id approval_token : String)
    (t : DT) :
    ContainsStr (create_github_issue issue_type title description repository
        website_url account_id approval_token t).body approval_token ∧
    ContainsStr (create_github_issue issue_type title description repository
        website_url account_id approval_token t).body
      "**Status:** Pending Client Approval" := by
  constructor
  · simp only [create_github_issue, issueBody]
    apply ContainsStr.appendRight
    apply ContainsStr.appendRight
    apply ContainsStr.appendRight
    apply ContainsStr.appendRight
    apply ContainsStr.appendRight
    exact ContainsStr.atEnd _ _
  · simp only [create_github_issue, issueBody]
    apply ContainsStr.appendRight
    apply ContainsStr.appendRight
    apply ContainsStr.appendRight
    apply ContainsStr.appendRight
    apply ContainsStr.appendLeft
    exact (containsSubB_iff _ _).mp (by decide)

set_option maxRecDepth 100000 in
/-- C6 (counterexample): the issue built by `main`'s concrete invocation for
repository `sa-template` has a body that does not contain the repository
identifier anywhere. -/
theorem issue_body_omits_repository :
    (create_github_issue "bug" "Contact page returns 404 error when refreshed"
        testEmailContent "sa-template" "https://example.com" "test-account-001"
        "APPR-20250601120000-1234" sampleClock).repo = "sa-template" ∧
    ¬ ContainsStr (create_github_issue "bug" "Contact page returns 404 error when refreshed"
        testEmailContent "sa-template" "https://example.com" "test-account-001"
        "APPR-20250601120000-1234" sampleClock).body "sa-template" := by
  constructor
  · rfl
  · intro h
    have hb := (containsSubB_iff _ _).mpr h
    exact absurd hb (by decide)

/-! ## Claim C9 -/

/-- C9: the confirmation e-mail embeds the approve link, the reject link and
the literal approval token in both the plain-text and the HTML representation,
and click tracking and open tracking are disabled on the message. -/
theorem confirmation_email_contents
    (client_email content_summary approve_link reject_link approval_token : String)
    (t : DT) :
    ContainsStr (send_confirmation_email client_email content_summary approve_link
        reject_link approval_token t).textContent approve_link ∧
    ContainsStr (send_confirmation_email client_email content_summary approve_link
        reject_link approval_token t).textContent reject_link ∧
    ContainsStr (send_confirmation_email client_email content_summary approve_link
        reject_link approval_token t).textContent approval_token ∧
    ContainsStr (send_confirmation_email client_email content_summary approve_link
        reject_link approval_token t).htmlContent approve_link ∧
    ContainsStr (send_confirmation_email client_email content_summary approve_link
        reject_link approval_token t).htmlContent reject_link ∧
    ContainsStr (send_confirmation_email client_email content_summary approve_link
        reject_link approval_token t).htmlContent approval_token ∧
    (send_confirmation_email client_email content_summary approve_link
        reject_link approval_token t).clickTrackingEnabled = false ∧
    (send_confirmation_email client_email content_summary approve_link
        reject_link approval_token t).openTrackingEnabled = false := by
  refine ⟨?_, ?_, ?_, ?_, ?_, ?_, rfl, rfl⟩ <;>
    simp only [send_confirmation_email]
  · apply ContainsStr.appendRight
    apply ContainsStr.appendRight
    apply ContainsStr.appendRight
    apply ContainsStr.appendRight
    apply ContainsStr.appendRight
    apply ContainsStr.appendRight
    apply ContainsStr.appendRight
    exact ContainsStr.atEnd _ _
  · apply ContainsStr.appendRight
    apply ContainsStr.appendRight
    apply ContainsStr.appendRight
    apply ContainsStr.appendRight
    apply ContainsStr.appendRight
    exact ContainsStr.atEnd _ _
  · apply ContainsStr.appendRight
    apply ContainsStr.appendRight
    apply ContainsStr.appendRight
    exact ContainsStr.atEnd _ _
  · apply ContainsStr.appendRight
    apply ContainsStr.appendRight
    apply ContainsStr.appendRight
    apply ContainsStr.appendRight
    apply ContainsStr.appendRight
    apply ContainsStr.appendRight
    apply ContainsStr.appendRight
    exact ContainsStr.atEnd _ _
  · apply ContainsStr.appendRight
    apply ContainsStr.appendRight
    apply ContainsStr.appendRight
    apply ContainsStr.appendRight
    apply ContainsStr.appendRight
    exact ContainsStr.atEnd _ _
  · apply ContainsStr.appendRight
    apply ContainsStr.appendRight
    apply ContainsStr.appendRight
    exact ContainsStr.atEnd _ _

/-! ## Claim C7 -/

/-- Discriminator for issue-creation effects. -/
def isCreateIssueEffect : Effect → Bool
  | Effect.createIssue _ => true
  | _ => false

/-- Discriminator for token-generation effects. -/
def isGenTokenEffect : Effect → Bool
  | Effect.genToken _ => true
  | _ => false

/-- C7 (counterexample): the classifier reply
`question: what is your pricing` — a tag outside bug/feature — does not abort
the workflow: a token is generated and an issue-creation request is made. -/
theorem unknown_tag_does_not_abort :
    (mainWorkflow "question: what is your pricing" sampleClock 1234 "datan8" []
        true true true true).countP isCreateIssueEffect = 1 ∧
    (mainWorkflow "question: what is your pricing" sampleClock 1234 "datan8" []
        true true true true).countP isGenTokenEffect = 1 ∧
    (mainWorkflow "question: what is your pricing" sampleClock 1234 "datan8" []
        true true true true) ≠ [] := by
  refine ⟨rfl, rfl, ?_⟩
  decide

/-- C7 (amended): the workflow aborts with no side effects exactly when the
classifier reply is the literal `neither` or contains no `": "` separator
anywhere (the reply is split at its first `": "`, not per line); every other
reply `<tag>: <summary>` proceeds to token generation and an issue-creation
request, the tag being lower-cased only to pick the kind label — `bug`,
`enhancement`, or no kind label at all for an unrecognized tag. -/
theorem classification_parsing :
    (∀ (classification : String) (t : DT) (r : Nat) (org : String)
        (issues : List Issue) (issueOk emailOk patchOk commentOk : Bool),
      mainWorkflow classification t r org issues issueOk emailOk patchOk commentOk = []
        ↔ (classification = "neither" ∨
            splitOnce ": ".data classification.data = none)) ∧
    (∀ (classification : String) (p0 p1 : List Char) (t : DT) (r : Nat)
        (org : String) (issues : List Issue) (emailOk patchOk commentOk : Bool),
      classification ≠ "neither" →
      splitOnce ": ".data classification.data = some (p0, p1) →
      ∃ rest, mainWorkflow classification t r org issues true emailOk patchOk commentOk
        = Effect.genToken (generate_approval_token t r) ::
          Effect.createIssue (create_github_issue (pyStrip (String.mk p0))
            (pyStrip (String.mk p1)) testEmailContent "sa-template"
            "https://example.com" "test-account-001"
            (generate_approval_token t r) t) :: rest) ∧
    issueLabels "Bug" = ["amazon-q", "client-request", "auto-generated", "bug"] ∧
    issueLabels "FEATURE" = ["amazon-q", "client-request", "auto-generated", "enhancement"] ∧
    issueLabels "question" = ["amazon-q", "client-request", "auto-generated"] := by
  refine ⟨?_, ?_, rfl, rfl, rfl⟩
  · intro classification t r org issues issueOk emailOk patchOk commentOk
    unfold mainWorkflow
    by_cases hc : classification = "neither"
    · simp [hc]
    · simp only [hc, if_false]
      cases hsp : splitOnce ": ".data classification.data with
      | none => simp [hc]
      | some p => simp [hc]
  · intro classification p0 p1 t r org issues emailOk patchOk commentOk h1 h2
    unfold mainWorkflow
    simp only [h1, if_false, h2, if_true]
    exact ⟨_, rfl⟩

/-- Witness for C7 at the fixture classification `bug: ...`. -/
theorem classification_parsing_witness :
    ∃ rest, mainWorkflow "bug: Contact page returns 404 error when refreshed"
        sampleClock 1234 "datan8" [] true true true true
      = Effect.genToken (generate_approval_token sampleClock 1234) ::
        Effect.createIssue (create_github_issue "bug"
          "Contact page returns 404 error when refreshed" testEmailContent
          "sa-template" "https://example.com" "test-account-001"
          (generate_approval_token sampleClock 1234) sampleClock) :: rest :=
  classification_parsing.2.1 "bug: Contact page returns 404 error when refreshed"
    "bug".data "Contact page returns 404 error when refreshed".data
    sampleClock 1234 "datan8" [] true true true (by decide) (by decide)

/-! ## Claim C3 -/

theorem natDigits_length_four {n : Nat} (h1 : 1000 ≤ n) (h2 : n ≤ 9999) :
    (natDigits n).length = 4 := by
  have e1 := natDigits_eq n
  rw [if_neg (by omega : ¬ n < 10)] at e1
  have e2 := natDigits_eq (n / 10)
  rw [if_neg (by omega : ¬ n / 10 < 10)] at e2
  have e3 := natDigits_eq (n / 10 / 10)
  rw [if_neg (by omega : ¬ n / 10 / 10 < 10)] at e3
  have e4 := natDigits_eq (n / 10 / 10 / 10)
  rw [if_pos (by omega : n / 10 / 10 / 10 < 10)] at e4
  rw [e1, e2, e3, e4]
  simp

theorem generate_approval_token_pattern {t : DT} {r : Nat} (ht : t.Valid)
    (h1 : 1000 ≤ r) (h2 : r ≤ 9999) :
    MatchesTokenPattern (generate_approval_token t r) :=
  ⟨strftime14 t, natDigits r, generate_approval_token_data t r,
    strftime14_length ht, strftime14_all_isDigit t,
    natDigits_length_four h1 h2, natDigits_all_isDigit r⟩

theorem generate_approval_token_suffix {t : DT} (r : Nat) (ht : t.Valid) :
    tokenSuffix (generate_approval_token t r) = natDigits r :=
  tokenSuffix_of_data (generate_approval_token_data t r) (strftime14_length ht)

theorem generate_approval_token_timestamp {t : DT} (r : Nat) (ht : t.Valid) :
    tokenTimestamp (generate_approval_token t r) = strftime14 t :=
  tokenTimestamp_of_data (generate_approval_token_data t r) (strftime14_length ht)

/-- C3 (amended): every token from `generate_approval_token` matches the
pattern `APPR-\d\x7b14\x7d-\d\x7b4\x7d` and its random suffix equals the draw
from `[1000, 9999]`; the `demo-simulation.py` variant also matches the pattern
but its hash-derived suffix is only guaranteed to lie in `[0, 9999]`; and for
sequential calls — clock readings in chronological order — the embedded
timestamps are non-decreasing. -/
theorem token_format_and_order :
    (∀ (t : DT) (r : Nat), t.Valid → 1000 ≤ r → r ≤ 9999 →
      MatchesTokenPattern (generate_approval_token t r) ∧
      decodeNum (tokenSuffix (generate_approval_token t r)) = r) ∧
    (∀ (t : DT) (h : Int), t.Valid →
      MatchesTokenPattern (demo_create_token t h) ∧
      decodeNum (tokenSuffix (demo_create_token t h)) ≤ 9999) ∧
    (∀ (t₁ t₂ : DT) (r₁ r₂ : Nat), t₁.Valid → t₂.Valid → DT.le t₁ t₂ →
      decodeNum (tokenTimestamp (generate_approval_token t₁ r₁))
        ≤ decodeNum (tokenTimestamp (generate_approval_token t₂ r₂))) := by
  refine ⟨?_, ?_, ?_⟩
  · intro t r ht h1 h2
    refine ⟨generate_approval_token_pattern ht h1 h2, ?_⟩
    rw [generate_approval_token_suffix r ht, decodeNum_natDigits]
  · intro t h ht
    have hv : (h % 10000).toNat ≤ 9999 := by omega
    have hlen : (natDigits (h % 10000).toNat).length ≤ 4 :=
      natDigits_length_le 3 _ (by omega)
    refine ⟨⟨strftime14 t, zfill 4 (natDigits (h % 10000).toNat),
        demo_create_token_data t h, strftime14_length ht,
        strftime14_all_isDigit t, zfill_length hlen,
        zfill_all_isDigit (natDigits_all_isDigit _)⟩, ?_⟩
    rw [tokenSuffix_of_data (demo_create_token_data t h) (strftime14_length ht),
      decodeNum_zfill, decodeNum_natDigits]
    exact hv
  · intro t₁ t₂ r₁ r₂ h₁ h₂ hle
    rw [generate_approval_token_timestamp r₁ h₁,
      generate_approval_token_timestamp r₂ h₂,
      decodeNum_strftime14 h₁, decodeNum_strftime14 h₂]
    exact DT.tsNum_mono h₁ h₂ hle

/-- Witness for C3 at concrete clock readings, random draw and hash value. -/
theorem token_format_and_order_witness :
    MatchesTokenPattern (generate_approval_token sampleClock 1234) ∧
    decodeNum (tokenSuffix (generate_approval_token sampleClock 1234)) = 1234 ∧
    MatchesTokenPattern (demo_create_token sampleClock 42) ∧
    decodeNum (tokenTimestamp (generate_approval_token sampleClock 1234))
      ≤ decodeNum (tokenTimestamp (generate_approval_token sampleClock2 5678)) :=
  ⟨(token_format_and_order.1 sampleClock 1234 (by decide) (by decide) (by decide)).1,
   (token_format_and_order.1 sampleClock 1234 (by decide) (by decide) (by decide)).2,
   (token_format_and_order.2.1 sampleClock 42 (by decide)).1,
   token_format_and_order.2.2 sampleClock sampleClock2 1234 5678
     (by decide) (by decide) (by decide)⟩

/-- C3 (counterexample): at hash value 42 the demo token generator emits the
suffix `0042`, whose value 42 lies outside `[1000, 9999]`, so the suffix is not
drawn from that range. -/
theorem demo_token_suffix_below_range :
    demo_create_token sampleClock 42 = "APPR-20250601120000-0042" ∧
    decodeNum (tokenSuffix (demo_create_token sampleClock 42)) = 42 ∧
    ¬ (1000 ≤ decodeNum (tokenSuffix (demo_create_token sampleClock 42))) := by
  refine ⟨?_, ?_, ?_⟩ <;> decide

end AutoUpdate
